import Mathlib

/-!
# Verification of the blog view layer (`src/blog/views.py`)

Shallow embedding of the four request handlers of `blog/views.py`:
`post_detail`, `PostListView`, `post_share` and `post_comment`.

The database is an explicit state (lists of posts and comments); the
mail-sending collaborator is observed through the list of mails a handler
emits; template rendering is the context dictionary the handler passes to
`render`.  Framework failures (`Http404` from `get_object_or_404`,
`HttpResponseNotAllowed` from `require_POST`, `MultipleObjectsReturned`
from `get`) are the error side of an `Except`.
-/

namespace Blog

/-- HTTP methods relevant to the handlers. -/
inductive Method where
  | get
  | post
deriving DecidableEq, Repr

/-- `Post.Status` from `blog/models.py`.
Modelled from the spec: `models.py` is not under `src/`; the spec gives a
Post `status (draft/published)`. -/
inductive Status where
  | draft
  | published
deriving DecidableEq, Repr

/-- The `Post` model.
Modelled from the spec: `models.py` is not under `src/`; the spec gives
attributes id, title, slug, publish timestamp (used here through its
year/month/day projections) and status. -/
structure Post where
  id : Nat
  title : String
  slug : String
  publishYear : Nat
  publishMonth : Nat
  publishDay : Nat
  status : Status
deriving DecidableEq, Repr

/-- The `Comment` model.
Modelled from the spec: `models.py` is not under `src/`; the spec gives
attributes name, email, body, active flag and owning post reference, with
`active=true` the default at creation. -/
structure Comment where
  name : String
  email : String
  body : String
  active : Bool
  postId : Nat
deriving DecidableEq, Repr

/-- The object store the handlers read and (for `post_comment`) write. -/
structure Db where
  posts : List Post
  comments : List Comment
deriving DecidableEq, Repr

/-- Framework-raised request failures: `Http404` from `get_object_or_404`
(or an out-of-range page in `ListView`), `HttpResponseNotAllowed` from the
`require_POST` decorator, and `MultipleObjectsReturned` from `get` when a
filter matches more than one row. -/
inductive HttpError where
  | notFound
  | methodNotAllowed
  | multipleReturned
deriving DecidableEq, Repr

/-- `django.shortcuts.get_object_or_404` applied to the rows matching the
filter: `Http404` on zero rows, the row on exactly one,
`MultipleObjectsReturned` on several. -/
def getObjectOr404 (rows : List Post) : Except HttpError Post :=
  match rows with
  | [] => .error .notFound
  | [p] => .ok p
  | _ :: _ :: _ => .error .multipleReturned

/-- The filter `id=post_id, status=Post.Status.PUBLISHED` used by
`post_share` and `post_comment`. -/
def publishedById (db : Db) (postId : Nat) : List Post :=
  db.posts.filter (fun p => p.id == postId && p.status == Status.published)

/-- The filter `status=PUBLISHED, slug=post, publish__year=year,
publish__month=month, publish__day=day` used by `post_detail`. -/
def publishedByDateSlug (db : Db) (year month day : Nat) (slug : String) :
    List Post :=
  db.posts.filter (fun p =>
    p.status == Status.published && p.slug == slug &&
    p.publishYear == year && p.publishMonth == month && p.publishDay == day)

/-- A well-formed email address.
Modelled from the spec: the validation rules of the framework email field
used by `forms.py` (not under `src/`); the spec requires an invalid `to`
address to fail validation.  A single `@` separating a nonempty local part
from a nonempty domain containing a dot. -/
def validEmail (s : String) : Bool :=
  let cs := s.toList
  let localPart := cs.takeWhile (fun c => c != '@')
  let domain := (cs.dropWhile (fun c => c != '@')).drop 1
  cs.count '@' == 1 && !localPart.isEmpty && !domain.isEmpty &&
    domain.contains '.'

/-- Submitted data bound by `CommentForm(data=request.POST)`.  A missing
field binds as the empty string. -/
structure CommentFormData where
  name : String
  email : String
  body : String
deriving DecidableEq, Repr

/-- Field errors of `CommentForm`.
Modelled from the spec: `forms.py` is not under `src/`; the spec has the
form validate fields {name, email, body}, rejecting a missing `body` and
requiring a well-formed email. -/
def CommentFormData.errors (d : CommentFormData) : List String :=
  (if d.name == "" then ["name"] else []) ++
  (if validEmail d.email then [] else ["email"]) ++
  (if d.body == "" then ["body"] else [])

/-- `CommentForm.is_valid()`. -/
def CommentFormData.isValid (d : CommentFormData) : Bool :=
  d.errors.isEmpty

/-- `form.save(commit=False)` followed by `comment.post = post`: a fresh
`Comment` from the cleaned data, attached to `post`, with the model's
default `active=true`. -/
def CommentFormData.toComment (d : CommentFormData) (post : Post) : Comment :=
  { name := d.name, email := d.email, body := d.body,
    active := true, postId := post.id }

/-- The state of the `CommentForm` instance placed in a response context:
either fresh/unbound (`CommentForm()`) or bound to submitted data. -/
inductive CommentFormState where
  | unbound
  | bound (data : CommentFormData)
deriving DecidableEq, Repr

/-- Context dictionary rendered by `post_comment`
(`{'post': post, 'form': form, 'comment': comment}`). -/
structure CommentContext where
  post : Post
  form : CommentFormState
  comment : Option Comment
deriving DecidableEq, Repr

/-- Outcome of a `post_comment` request: the store after the request and
the response (rendered context or framework failure). -/
structure CommentOutcome where
  db : Db
  response : Except HttpError CommentContext
deriving Repr

/-- `post_comment` (`views.py` lines 112-144).  `@require_POST` rejects any
non-POST method before the handler body runs; then the published post is
looked up by id, the submitted data is bound to a `CommentForm`, and if the
form is valid a new comment attached to the post is saved. -/
def post_comment (method : Method) (data : CommentFormData) (postId : Nat)
    (db : Db) : CommentOutcome :=
  if method ≠ Method.post then
    { db := db, response := .error .methodNotAllowed }
  else
    match getObjectOr404 (publishedById db postId) with
    | .error e => { db := db, response := .error e }
    | .ok post =>
        if data.isValid then
          let comment := data.toComment post
          { db := { db with comments := db.comments ++ [comment] },
            response := .ok { post := post, form := .bound data,
                              comment := some comment } }
        else
          { db := db,
            response := .ok { post := post, form := .bound data,
                              comment := none } }

/-- `Post.get_absolute_url` from `blog/models.py`.
Modelled from the spec: `models.py` is not under `src/`; the spec says
`post_share` builds "an absolute URL to the post", and the detail route is
addressed by year, month, day and slug. -/
def Post.get_absolute_url (p : Post) : String :=
  "/blog/" ++ toString p.publishYear ++ "/" ++ toString p.publishMonth ++
    "/" ++ toString p.publishDay ++ "/" ++ p.slug ++ "/"

/-- Submitted data bound by `EmailPostForm(request.POST)`.  A missing field
binds as the empty string. -/
structure EmailPostFormData where
  name : String
  email : String
  «to» : String
  comments : String
deriving DecidableEq, Repr

/-- Field errors of `EmailPostForm`.
Modelled from the spec: `forms.py` is not under `src/`; the spec has the
form validate fields {name, email, to, comments}, rejecting an invalid
email in `to` (or in `email`) and a missing name; `comments` is free
text. -/
def EmailPostFormData.errors (d : EmailPostFormData) : List String :=
  (if d.name == "" then ["name"] else []) ++
  (if validEmail d.email then [] else ["email"]) ++
  (if validEmail d.«to» then [] else ["to"])

/-- `EmailPostForm.is_valid()`. -/
def EmailPostFormData.isValid (d : EmailPostFormData) : Bool :=
  d.errors.isEmpty

/-- The state of the `EmailPostForm` instance placed in a response
context. -/
inductive EmailFormState where
  | unbound
  | bound (data : EmailPostFormData)
deriving DecidableEq, Repr

/-- One call to the mail collaborator `send_mail(subject, message,
from_email, recipient_list)`. -/
structure Mail where
  subject : String
  message : String
  fromEmail : Option String
  recipientList : List String
deriving DecidableEq, Repr

/-- An apostrophe, as it appears in the composed mail body. -/
def apos : String := String.singleton (Char.ofNat 39)

/-- Context dictionary rendered by `post_share`
(`{'post': post, 'form': form, 'sent': sent}`). -/
structure ShareContext where
  post : Post
  form : EmailFormState
  sent : Bool
deriving DecidableEq, Repr

/-- Outcome of a `post_share` request: the mails sent while handling it
and the response. -/
structure ShareOutcome where
  mails : List Mail
  response : Except HttpError ShareContext
deriving Repr

/-- The mail composed by the valid-POST branch of `post_share`:
`request.build_absolute_uri` is prepending the request's scheme and host
(`baseUri`) to the post's absolute URL. -/
def shareMail (data : EmailPostFormData) (baseUri : String) (post : Post) :
    Mail :=
  let postUrl := baseUri ++ post.get_absolute_url
  { subject := data.name ++ " (" ++ data.email ++ ") recommends you read "
      ++ post.title,
    message := "Read " ++ post.title ++ " at " ++ postUrl ++ "\n\n"
      ++ data.name ++ apos ++ "s comments: " ++ data.comments,
    fromEmail := none,
    recipientList := [data.«to»] }

/-- `post_share` (`views.py` lines 58-109).  The published post is looked
up by id; on POST the submitted data is bound and, if valid, one mail is
sent and `sent` becomes true; on any other method a fresh unbound form is
rendered with `sent=false`. -/
def post_share (method : Method) (data : EmailPostFormData)
    (baseUri : String) (postId : Nat) (db : Db) : ShareOutcome :=
  match getObjectOr404 (publishedById db postId) with
  | .error e => { mails := [], response := .error e }
  | .ok post =>
      if method = Method.post then
        if data.isValid then
          { mails := [shareMail data baseUri post],
            response := .ok { post := post, form := .bound data,
                              sent := true } }
        else
          { mails := [],
            response := .ok { post := post, form := .bound data,
                              sent := false } }
      else
        { mails := [],
          response := .ok { post := post, form := .unbound,
                            sent := false } }

/-- Context dictionary rendered by `post_detail`
(`{'post': post, 'comments': comments, 'form': form}`). -/
structure DetailContext where
  post : Post
  comments : List Comment
  form : CommentFormState
deriving DecidableEq, Repr

/-- `post.comments.all()`: the related manager of `Comment.post`, i.e. the
comments whose owning post reference is `post`, in stored order. -/
def Post.commentsOf (post : Post) (db : Db) : List Comment :=
  db.comments.filter (fun c => c.postId == post.id)

/-- `post_detail` (`views.py` lines 10-42).  Looks up the unique published
post with the given slug and publish date, collects its active comments
(`post.comments.filter(active=True)`), and renders them with a fresh
unbound comment form. -/
def post_detail (year month day : Nat) (slug : String) (db : Db) :
    Except HttpError DetailContext :=
  match getObjectOr404 (publishedByDateSlug db year month day slug) with
  | .error e => .error e
  | .ok post =>
      .ok { post := post,
            comments := (post.commentsOf db).filter (fun c => c.active),
            form := .unbound }

/-- `Post.published.all()`: the published-posts manager.
Modelled from the spec: `models.py` (defining the `published` manager) is
not under `src/`; the spec reads "all published posts, ordered by the
store's default ordering". -/
def publishedPosts (db : Db) : List Post :=
  db.posts.filter (fun p => p.status == Status.published)

/-- `django.core.paginator.Paginator.num_pages` for page size `per`: the
ceiling of `count / per`, except that an empty object list still has one
(empty) page. -/
def numPages (count per : Nat) : Nat :=
  if count = 0 then 1 else (count + per - 1) / per

/-- `PostListView` (`views.py` lines 45-55): the generic `ListView` over
`Post.published.all()` with `paginate_by = 3`.  A page number outside
`1..num_pages` raises `Http404`; a valid page holds the corresponding
3-element slice of the published posts. -/
def PostListView (page : Nat) (db : Db) : Except HttpError (List Post) :=
  let pubs := publishedPosts db
  if 1 ≤ page ∧ page ≤ numPages pubs.length 3 then
    .ok ((pubs.drop ((page - 1) * 3)).take 3)
  else
    .error .notFound

end Blog

namespace Blog

/-- C1: a valid POST to `post_comment` on a published post persists exactly
one new `Comment`, attached to the looked-up post, and that comment is the
`comment` value of the rendered context. -/
theorem post_comment_valid_persists_one (data : CommentFormData)
    (postId : Nat) (db : Db) (p : Post)
    (hp : publishedById db postId = [p])
    (hv : data.isValid = true) :
    post_comment Method.post data postId db =
      { db := { db with comments := db.comments ++ [data.toComment p] },
        response := .ok { post := p, form := .bound data,
                          comment := some (data.toComment p) } } ∧
    (data.toComment p).postId = p.id ∧
    (data.toComment p).active = true := by
  refine ⟨?_, rfl, rfl⟩
  simp [post_comment, hp, getObjectOr404, hv]

/-- Witness for C1: the spec example, post 5 ("Ana", "ana@x.com",
"Nice post!"). -/
theorem post_comment_valid_persists_one_witness :
    publishedById
      { posts := [{ id := 5, title := "t", slug := "s", publishYear := 2024,
                    publishMonth := 1, publishDay := 2,
                    status := Status.published }], comments := [] } 5 =
      [{ id := 5, title := "t", slug := "s", publishYear := 2024,
         publishMonth := 1, publishDay := 2, status := Status.published }] ∧
    CommentFormData.isValid
      { name := "Ana", email := "ana@x.com", body := "Nice post!" } = true ∧
    (post_comment Method.post
      { name := "Ana", email := "ana@x.com", body := "Nice post!" } 5
      { posts := [{ id := 5, title := "t", slug := "s", publishYear := 2024,
                    publishMonth := 1, publishDay := 2,
                    status := Status.published }], comments := [] }).db.comments =
      [{ name := "Ana", email := "ana@x.com", body := "Nice post!",
         active := true, postId := 5 }] := by
  refine ⟨by decide, by decide, ?_⟩
  have h := post_comment_valid_persists_one
    { name := "Ana", email := "ana@x.com", body := "Nice post!" } 5
    { posts := [{ id := 5, title := "t", slug := "s", publishYear := 2024,
                  publishMonth := 1, publishDay := 2,
                  status := Status.published }], comments := [] }
    { id := 5, title := "t", slug := "s", publishYear := 2024,
      publishMonth := 1, publishDay := 2, status := Status.published }
    (by decide) (by decide)
  rw [h.1]
  rfl

/-- C4: a POST to `post_comment` on a published post whose form fails
validation persists nothing (the comment store is unchanged), returns the
bound form carrying field errors, and the `comment` slot of the context is
empty. -/
theorem post_comment_invalid_persists_nothing (data : CommentFormData)
    (postId : Nat) (db : Db) (p : Post)
    (hp : publishedById db postId = [p])
    (hv : data.isValid = false) :
    post_comment Method.post data postId db =
      { db := db,
        response := .ok { post := p, form := .bound data,
                          comment := none } } ∧
    (post_comment Method.post data postId db).db.comments = db.comments ∧
    data.errors ≠ [] := by
  refine ⟨?_, ?_, ?_⟩
  · simp [post_comment, hp, getObjectOr404, hv]
  · simp [post_comment, hp, getObjectOr404, hv]
  · intro h
    simp [CommentFormData.isValid, h] at hv

/-- Witness for C4: a submission with the `body` field missing is rejected
and persists nothing. -/
theorem post_comment_invalid_persists_nothing_witness :
    publishedById
      { posts := [{ id := 5, title := "t", slug := "s", publishYear := 2024,
                    publishMonth := 1, publishDay := 2,
                    status := Status.published }], comments := [] } 5 =
      [{ id := 5, title := "t", slug := "s", publishYear := 2024,
         publishMonth := 1, publishDay := 2, status := Status.published }] ∧
    CommentFormData.isValid
      { name := "Ana", email := "ana@x.com", body := "" } = false ∧
    (post_comment Method.post
      { name := "Ana", email := "ana@x.com", body := "" } 5
      { posts := [{ id := 5, title := "t", slug := "s", publishYear := 2024,
                    publishMonth := 1, publishDay := 2,
                    status := Status.published }],
        comments := [] }).db.comments = [] := by
  refine ⟨by decide, by decide, ?_⟩
  have h := post_comment_invalid_persists_nothing
    { name := "Ana", email := "ana@x.com", body := "" } 5
    { posts := [{ id := 5, title := "t", slug := "s", publishYear := 2024,
                  publishMonth := 1, publishDay := 2,
                  status := Status.published }], comments := [] }
    { id := 5, title := "t", slug := "s", publishYear := 2024,
      publishMonth := 1, publishDay := 2, status := Status.published }
    (by decide) (by decide)
  exact h.2.1

/-- C8: a non-POST request to `post_comment` is rejected with
`MethodNotAllowed` and no comment is persisted. -/
theorem post_comment_non_post_rejected (method : Method)
    (data : CommentFormData) (postId : Nat) (db : Db)
    (hm : method ≠ Method.post) :
    post_comment method data postId db =
      { db := db, response := .error .methodNotAllowed } := by
  simp [post_comment, hm]

/-- Witness for C8: a GET to `post_comment` is rejected and leaves the
store unchanged. -/
theorem post_comment_non_post_rejected_witness :
    Method.get ≠ Method.post ∧
    post_comment Method.get
      { name := "Ana", email := "ana@x.com", body := "Nice post!" } 5
      { posts := [{ id := 5, title := "t", slug := "s", publishYear := 2024,
                    publishMonth := 1, publishDay := 2,
                    status := Status.published }], comments := [] } =
      { db := { posts := [{ id := 5, title := "t", slug := "s",
                            publishYear := 2024, publishMonth := 1,
                            publishDay := 2, status := Status.published }],
                comments := [] },
        response := .error .methodNotAllowed } := by
  exact ⟨by decide, post_comment_non_post_rejected Method.get
    { name := "Ana", email := "ana@x.com", body := "Nice post!" } 5
    { posts := [{ id := 5, title := "t", slug := "s", publishYear := 2024,
                  publishMonth := 1, publishDay := 2,
                  status := Status.published }], comments := [] }
    (by decide)⟩

/-- C10: the `require_POST` check precedes the post lookup: a non-POST
request is rejected with `MethodNotAllowed` even when no published post
matches `post_id`, so no `NotFound` is produced and the store is read
neither for the lookup nor for a write. -/
theorem post_comment_method_check_precedes_lookup (method : Method)
    (data : CommentFormData) (postId : Nat) (db : Db)
    (hm : method ≠ Method.post)
    (hnone : publishedById db postId = []) :
    (post_comment method data postId db).response =
      .error .methodNotAllowed ∧
    (post_comment method data postId db).response ≠ .error .notFound ∧
    (post_comment method data postId db).db = db := by
  refine ⟨?_, ?_, ?_⟩ <;> simp [post_comment, hm]

/-- Witness for C10: a GET with a `post_id` matching nothing still yields
`MethodNotAllowed`, not `NotFound`. -/
theorem post_comment_method_check_precedes_lookup_witness :
    Method.get ≠ Method.post ∧
    publishedById { posts := [], comments := [] } 5 = [] ∧
    (post_comment Method.get
      { name := "Ana", email := "ana@x.com", body := "Nice post!" } 5
      { posts := [], comments := [] }).response =
      .error .methodNotAllowed := by
  refine ⟨by decide, by decide, ?_⟩
  exact (post_comment_method_check_precedes_lookup Method.get
    { name := "Ana", email := "ana@x.com", body := "Nice post!" } 5
    { posts := [], comments := [] } (by decide) (by decide)).1

/-- C2: a valid POST to `post_share` on a published post calls the mail
collaborator exactly once, with recipient list the single-element list
`[to]`, and renders `sent=true`. -/
theorem post_share_valid_sends_one (data : EmailPostFormData)
    (baseUri : String) (postId : Nat) (db : Db) (p : Post)
    (hp : publishedById db postId = [p])
    (hv : data.isValid = true) :
    post_share Method.post data baseUri postId db =
      { mails := [shareMail data baseUri p],
        response := .ok { post := p, form := .bound data,
                          sent := true } } ∧
    (post_share Method.post data baseUri postId db).mails.length = 1 ∧
    (shareMail data baseUri p).recipientList = [data.«to»] := by
  refine ⟨?_, ?_, rfl⟩ <;> simp [post_share, hp, getObjectOr404, hv]

/-- Witness for C2: a fully valid share request sends exactly one mail to
`[to]`. -/
theorem post_share_valid_sends_one_witness :
    publishedById
      { posts := [{ id := 5, title := "t", slug := "s", publishYear := 2024,
                    publishMonth := 1, publishDay := 2,
                    status := Status.published }], comments := [] } 5 =
      [{ id := 5, title := "t", slug := "s", publishYear := 2024,
         publishMonth := 1, publishDay := 2, status := Status.published }] ∧
    EmailPostFormData.isValid
      { name := "Ana", email := "ana@x.com", «to» := "bob@y.org",
        comments := "enjoy" } = true ∧
    (post_share Method.post
      { name := "Ana", email := "ana@x.com", «to» := "bob@y.org",
        comments := "enjoy" } "http://h" 5
      { posts := [{ id := 5, title := "t", slug := "s", publishYear := 2024,
                    publishMonth := 1, publishDay := 2,
                    status := Status.published }],
        comments := [] }).mails.length = 1 := by
  refine ⟨by decide, by decide, ?_⟩
  exact (post_share_valid_sends_one
    { name := "Ana", email := "ana@x.com", «to» := "bob@y.org",
      comments := "enjoy" } "http://h" 5
    { posts := [{ id := 5, title := "t", slug := "s", publishYear := 2024,
                  publishMonth := 1, publishDay := 2,
                  status := Status.published }], comments := [] }
    { id := 5, title := "t", slug := "s", publishYear := 2024,
      publishMonth := 1, publishDay := 2, status := Status.published }
    (by decide) (by decide)).2.1

/-- C3: a POST to `post_share` on a published post whose form fails
validation (in particular an invalid `to` address) sends no mail and
renders `sent=false` with the bound form carrying field errors. -/
theorem post_share_invalid_sends_nothing (data : EmailPostFormData)
    (baseUri : String) (postId : Nat) (db : Db) (p : Post)
    (hp : publishedById db postId = [p])
    (hv : data.isValid = false) :
    post_share Method.post data baseUri postId db =
      { mails := [],
        response := .ok { post := p, form := .bound data,
                          sent := false } } ∧
    data.errors ≠ [] := by
  refine ⟨?_, ?_⟩
  · simp [post_share, hp, getObjectOr404, hv]
  · intro h
    simp [EmailPostFormData.isValid, h] at hv

/-- Witness for C3: an invalid `to` address fails validation, so no mail
is sent and `sent=false`. -/
theorem post_share_invalid_sends_nothing_witness :
    publishedById
      { posts := [{ id := 5, title := "t", slug := "s", publishYear := 2024,
                    publishMonth := 1, publishDay := 2,
                    status := Status.published }], comments := [] } 5 =
      [{ id := 5, title := "t", slug := "s", publishYear := 2024,
         publishMonth := 1, publishDay := 2, status := Status.published }] ∧
    EmailPostFormData.isValid
      { name := "Ana", email := "ana@x.com", «to» := "not-an-email",
        comments := "enjoy" } = false ∧
    (post_share Method.post
      { name := "Ana", email := "ana@x.com", «to» := "not-an-email",
        comments := "enjoy" } "http://h" 5
      { posts := [{ id := 5, title := "t", slug := "s", publishYear := 2024,
                    publishMonth := 1, publishDay := 2,
                    status := Status.published }],
        comments := [] }).mails = [] := by
  refine ⟨by decide, by decide, ?_⟩
  have h := (post_share_invalid_sends_nothing
    { name := "Ana", email := "ana@x.com", «to» := "not-an-email",
      comments := "enjoy" } "http://h" 5
    { posts := [{ id := 5, title := "t", slug := "s", publishYear := 2024,
                  publishMonth := 1, publishDay := 2,
                  status := Status.published }], comments := [] }
    { id := 5, title := "t", slug := "s", publishYear := 2024,
      publishMonth := 1, publishDay := 2, status := Status.published }
    (by decide) (by decide)).1
  rw [h]

/-- C9: a GET to `post_share` on a published post renders an empty unbound
form with `sent=false` and sends no mail. -/
theorem post_share_get_empty_form (data : EmailPostFormData)
    (baseUri : String) (postId : Nat) (db : Db) (p : Post)
    (hp : publishedById db postId = [p]) :
    post_share Method.get data baseUri postId db =
      { mails := [],
        response := .ok { post := p, form := .unbound,
                          sent := false } } := by
  simp [post_share, hp, getObjectOr404]

/-- Witness for C9: a concrete GET share request sends nothing and renders
the unbound form. -/
theorem post_share_get_empty_form_witness :
    publishedById
      { posts := [{ id := 5, title := "t", slug := "s", publishYear := 2024,
                    publishMonth := 1, publishDay := 2,
                    status := Status.published }], comments := [] } 5 =
      [{ id := 5, title := "t", slug := "s", publishYear := 2024,
         publishMonth := 1, publishDay := 2, status := Status.published }] ∧
    (post_share Method.get
      { name := "", email := "", «to» := "", comments := "" } "http://h" 5
      { posts := [{ id := 5, title := "t", slug := "s", publishYear := 2024,
                    publishMonth := 1, publishDay := 2,
                    status := Status.published }], comments := [] }).mails =
      [] := by
  refine ⟨by decide, ?_⟩
  have h := post_share_get_empty_form
    { name := "", email := "", «to» := "", comments := "" } "http://h" 5
    { posts := [{ id := 5, title := "t", slug := "s", publishYear := 2024,
                  publishMonth := 1, publishDay := 2,
                  status := Status.published }], comments := [] }
    { id := 5, title := "t", slug := "s", publishYear := 2024,
      publishMonth := 1, publishDay := 2, status := Status.published }
    (by decide)
  rw [h]

/-- Any post in the rows matched by the `post_detail` filter is published
and carries the requested slug and publish date. -/
theorem publishedByDateSlug_mem {db : Db} {year month day : Nat}
    {slug : String} {p : Post}
    (hp : p ∈ publishedByDateSlug db year month day slug) :
    p.status = Status.published ∧ p.slug = slug ∧ p.publishYear = year ∧
    p.publishMonth = month ∧ p.publishDay = day := by
  have h := (List.mem_filter.mp hp).2
  simp only [Bool.and_eq_true, beq_iff_eq] at h
  exact ⟨h.1.1.1.1, h.1.1.1.2, h.1.1.2, h.1.2, h.2⟩

/-- C5: `post_detail` renders exactly when a unique published post matches
the date and slug; no match yields `NotFound`, and a rendered page never
carries a non-published post or one with a different slug or date. -/
theorem post_detail_published_exactly (year month day : Nat) (slug : String)
    (db : Db) :
    (publishedByDateSlug db year month day slug = [] →
      post_detail year month day slug db = .error .notFound) ∧
    (∀ p, publishedByDateSlug db year month day slug = [p] →
      post_detail year month day slug db =
        .ok { post := p,
              comments := (p.commentsOf db).filter (fun c => c.active),
              form := .unbound }) ∧
    (∀ ctx, post_detail year month day slug db = .ok ctx →
      ctx.post.status = Status.published ∧ ctx.post.slug = slug ∧
      ctx.post.publishYear = year ∧ ctx.post.publishMonth = month ∧
      ctx.post.publishDay = day) := by
  refine ⟨?_, ?_, ?_⟩
  · intro h
    simp [post_detail, h, getObjectOr404]
  · intro p hp
    simp [post_detail, hp, getObjectOr404]
  · intro ctx h
    unfold post_detail at h
    rcases hrows : publishedByDateSlug db year month day slug with
      _ | ⟨p, _ | ⟨q, rest⟩⟩ <;> rw [hrows] at h <;>
      simp [getObjectOr404] at h
    have hmem : p ∈ publishedByDateSlug db year month day slug := by
      rw [hrows]
      exact List.mem_singleton.mpr rfl
    have hfields := publishedByDateSlug_mem hmem
    rw [← h]
    exact hfields

/-- Witness for C5: a published post matching the requested date and slug
is rendered with its active comments and a fresh form. -/
theorem post_detail_published_exactly_witness :
    publishedByDateSlug
      { posts := [{ id := 5, title := "t", slug := "s", publishYear := 2024,
                    publishMonth := 1, publishDay := 2,
                    status := Status.published }], comments := [] }
      2024 1 2 "s" =
      [{ id := 5, title := "t", slug := "s", publishYear := 2024,
         publishMonth := 1, publishDay := 2, status := Status.published }] ∧
    post_detail 2024 1 2 "s"
      { posts := [{ id := 5, title := "t", slug := "s", publishYear := 2024,
                    publishMonth := 1, publishDay := 2,
                    status := Status.published }], comments := [] } =
      .ok { post := { id := 5, title := "t", slug := "s",
                      publishYear := 2024, publishMonth := 1,
                      publishDay := 2, status := Status.published },
            comments :=
              (Post.commentsOf
                { id := 5, title := "t", slug := "s", publishYear := 2024,
                  publishMonth := 1, publishDay := 2,
                  status := Status.published }
                { posts := [{ id := 5, title := "t", slug := "s",
                              publishYear := 2024, publishMonth := 1,
                              publishDay := 2,
                              status := Status.published }],
                  comments := [] }).filter (fun c => c.active),
            form := .unbound } := by
  refine ⟨by decide, ?_⟩
  exact (post_detail_published_exactly 2024 1 2 "s"
    { posts := [{ id := 5, title := "t", slug := "s", publishYear := 2024,
                  publishMonth := 1, publishDay := 2,
                  status := Status.published }], comments := [] }).2.1
    { id := 5, title := "t", slug := "s", publishYear := 2024,
      publishMonth := 1, publishDay := 2, status := Status.published }
    (by decide)

/-- C6: every comment rendered by a successful `post_detail` has
`active=true`; an inactive comment of the matched post never appears. -/
theorem post_detail_only_active_comments (year month day : Nat)
    (slug : String) (db : Db) (ctx : DetailContext)
    (h : post_detail year month day slug db = .ok ctx) :
    (∀ c ∈ ctx.comments, c.active = true) ∧
    (∀ c, c.active = false → c ∉ ctx.comments) := by
  have hc : ∀ c ∈ ctx.comments, c.active = true := by
    unfold post_detail at h
    rcases hrows : publishedByDateSlug db year month day slug with
      _ | ⟨p, _ | ⟨q, rest⟩⟩ <;> rw [hrows] at h <;>
      simp [getObjectOr404] at h
    intro c hcmem
    rw [← h] at hcmem
    exact (List.mem_filter.mp hcmem).2
  refine ⟨hc, fun c hcf hcmem => ?_⟩
  have := hc c hcmem
  rw [this] at hcf
  exact Bool.noConfusion hcf

/-- Witness for C6: on a post with one active and one inactive comment,
the rendered list shows the active one and omits the inactive one. -/
theorem post_detail_only_active_comments_witness :
    post_detail 2024 1 2 "s"
      { posts := [{ id := 5, title := "t", slug := "s", publishYear := 2024,
                    publishMonth := 1, publishDay := 2,
                    status := Status.published }],
        comments := [{ name := "a", email := "a@x.com", body := "yes",
                       active := true, postId := 5 },
                     { name := "b", email := "b@x.com", body := "spam",
                       active := false, postId := 5 }] } =
      .ok { post := { id := 5, title := "t", slug := "s",
                      publishYear := 2024, publishMonth := 1,
                      publishDay := 2, status := Status.published },
            comments := [{ name := "a", email := "a@x.com", body := "yes",
                           active := true, postId := 5 }],
            form := .unbound } ∧
    Comment.active { name := "b", email := "b@x.com", body := "spam",
                     active := false, postId := 5 } = false ∧
    { name := "b", email := "b@x.com", body := "spam", active := false,
      postId := 5 : Comment } ∉
      [{ name := "a", email := "a@x.com", body := "yes", active := true,
         postId := 5 : Comment }] := by
  refine ⟨by rfl, by decide, ?_⟩
  have h := (post_detail_only_active_comments 2024 1 2 "s"
    { posts := [{ id := 5, title := "t", slug := "s", publishYear := 2024,
                  publishMonth := 1, publishDay := 2,
                  status := Status.published }],
      comments := [{ name := "a", email := "a@x.com", body := "yes",
                     active := true, postId := 5 },
                   { name := "b", email := "b@x.com", body := "spam",
                     active := false, postId := 5 }] }
    { post := { id := 5, title := "t", slug := "s", publishYear := 2024,
                publishMonth := 1, publishDay := 2,
                status := Status.published },
      comments := [{ name := "a", email := "a@x.com", body := "yes",
                     active := true, postId := 5 }],
      form := .unbound }
    (by rfl)).2
    { name := "b", email := "b@x.com", body := "spam", active := false,
      postId := 5 } (by decide)
  exact h

/-- C7: `PostListView` paginates the published posts at 3 per page: a
rendered page is the corresponding slice with at most 3 posts, exactly 3
on every page before the last, and any page number beyond the last yields
`NotFound`. -/
theorem PostListView_paginates_by_three (page : Nat) (db : Db) :
    (∀ l, PostListView page db = .ok l →
      l = ((publishedPosts db).drop ((page - 1) * 3)).take 3 ∧
      l.length ≤ 3) ∧
    (∀ l, PostListView page db = .ok l →
      page < numPages (publishedPosts db).length 3 → l.length = 3) ∧
    (numPages (publishedPosts db).length 3 < page →
      PostListView page db = .error .notFound) := by
  by_cases hc : 1 ≤ page ∧ page ≤ numPages (publishedPosts db).length 3
  · refine ⟨?_, ?_, ?_⟩
    · intro l hl
      rw [PostListView, if_pos hc] at hl
      obtain rfl : ((publishedPosts db).drop ((page - 1) * 3)).take 3 = l :=
        Except.ok.inj hl
      refine ⟨rfl, ?_⟩
      rw [List.length_take]
      exact min_le_left _ _
    · intro l hl hlt
      rw [PostListView, if_pos hc] at hl
      obtain rfl : ((publishedPosts db).drop ((page - 1) * 3)).take 3 = l :=
        Except.ok.inj hl
      rw [List.length_take, List.length_drop]
      have hn : (publishedPosts db).length ≠ 0 := by
        intro h0
        rw [numPages, if_pos h0] at hlt
        omega
      have hdiv : page + 1 ≤ ((publishedPosts db).length + 3 - 1) / 3 := by
        rw [numPages, if_neg hn] at hlt
        omega
      have := (Nat.le_div_iff_mul_le (by omega : 0 < 3)).mp hdiv
      omega
    · intro hgt
      rw [PostListView, if_neg]
      intro h
      omega
  · refine ⟨?_, ?_, ?_⟩
    · intro l hl
      rw [PostListView, if_neg hc] at hl
      exact absurd hl (by simp)
    · intro l hl
      rw [PostListView, if_neg hc] at hl
      exact absurd hl (by simp)
    · intro _
      rw [PostListView, if_neg hc]

/-- Witness for C7: with four published posts, page 1 holds exactly 3
posts and page 3 (beyond the last page, 2) yields `NotFound`. -/
theorem PostListView_paginates_by_three_witness :
    PostListView 1
      { posts := [{ id := 1, title := "t", slug := "a", publishYear := 2024,
                    publishMonth := 1, publishDay := 2,
                    status := Status.published },
                  { id := 2, title := "t", slug := "b", publishYear := 2024,
                    publishMonth := 1, publishDay := 2,
                    status := Status.published },
                  { id := 3, title := "t", slug := "c", publishYear := 2024,
                    publishMonth := 1, publishDay := 2,
                    status := Status.published },
                  { id := 4, title := "t", slug := "d", publishYear := 2024,
                    publishMonth := 1, publishDay := 2,
                    status := Status.published }], comments := [] } =
      .ok [{ id := 1, title := "t", slug := "a", publishYear := 2024,
             publishMonth := 1, publishDay := 2,
             status := Status.published },
           { id := 2, title := "t", slug := "b", publishYear := 2024,
             publishMonth := 1, publishDay := 2,
             status := Status.published },
           { id := 3, title := "t", slug := "c", publishYear := 2024,
             publishMonth := 1, publishDay := 2,
             status := Status.published }] ∧
    ([{ id := 1, title := "t", slug := "a", publishYear := 2024,
        publishMonth := 1, publishDay := 2,
        status := Status.published },
      { id := 2, title := "t", slug := "b", publishYear := 2024,
        publishMonth := 1, publishDay := 2,
        status := Status.published },
      { id := 3, title := "t", slug := "c", publishYear := 2024,
        publishMonth := 1, publishDay := 2,
        status := Status.published }] : List Post).length = 3 ∧
    PostListView 3
      { posts := [{ id := 1, title := "t", slug := "a", publishYear := 2024,
                    publishMonth := 1, publishDay := 2,
                    status := Status.published },
                  { id := 2, title := "t", slug := "b", publishYear := 2024,
                    publishMonth := 1, publishDay := 2,
                    status := Status.published },
                  { id := 3, title := "t", slug := "c", publishYear := 2024,
                    publishMonth := 1, publishDay := 2,
                    status := Status.published },
                  { id := 4, title := "t", slug := "d", publishYear := 2024,
                    publishMonth := 1, publishDay := 2,
                    status := Status.published }], comments := [] } =
      .error .notFound := by
  refine ⟨by rfl, ?_, ?_⟩
  · exact (PostListView_paginates_by_three 1
      { posts := [{ id := 1, title := "t", slug := "a", publishYear := 2024,
                    publishMonth := 1, publishDay := 2,
                    status := Status.published },
                  { id := 2, title := "t", slug := "b", publishYear := 2024,
                    publishMonth := 1, publishDay := 2,
                    status := Status.published },
                  { id := 3, title := "t", slug := "c", publishYear := 2024,
                    publishMonth := 1, publishDay := 2,
                    status := Status.published },
                  { id := 4, title := "t", slug := "d", publishYear := 2024,
                    publishMonth := 1, publishDay := 2,
                    status := Status.published }], comments := [] }).2.1
      [{ id := 1, title := "t", slug := "a", publishYear := 2024,
         publishMonth := 1, publishDay := 2, status := Status.published },
       { id := 2, title := "t", slug := "b", publishYear := 2024,
         publishMonth := 1, publishDay := 2, status := Status.published },
       { id := 3, title := "t", slug := "c", publishYear := 2024,
         publishMonth := 1, publishDay := 2, status := Status.published }]
      (by rfl) (by decide)
  · exact (PostListView_paginates_by_three 3
      { posts := [{ id := 1, title := "t", slug := "a", publishYear := 2024,
                    publishMonth := 1, publishDay := 2,
                    status := Status.published },
                  { id := 2, title := "t", slug := "b", publishYear := 2024,
                    publishMonth := 1, publishDay := 2,
                    status := Status.published },
                  { id := 3, title := "t", slug := "c", publishYear := 2024,
                    publishMonth := 1, publishDay := 2,
                    status := Status.published },
                  { id := 4, title := "t", slug := "d", publishYear := 2024,
                    publishMonth := 1, publishDay := 2,
                    status := Status.published }], comments := [] }).2.2
      (by decide)

end Blog
